import Mathlib

/-!
Verification of the TRIZ problem-to-principle recommendation engine,
a shallow embedding of `src/triz_web_app/backend/triz_core.py`
(class `AdvancedTRIZInnovator` and the `Solution` dataclass).

Strings are modelled by Lean `String`; Python float arithmetic on the
score formulas is modelled by exact rational arithmetic (`ℚ`); Python
dicts (which iterate in insertion order) are modelled by association
lists in source order.
-/

namespace TrizCore

/-- Python's substring test `needle in haystack` (true for the empty needle). -/
def strContains (hay needle : String) : Bool :=
  hay.data.tails.any (fun t => needle.data.isPrefixOf t)

/-- Python's `str.lower()`. ASCII letters are lower-cased; the CJK
characters appearing in the knowledge base are unaffected by `lower()`. -/
def pyLower (s : String) : String := ⟨s.data.map Char.toLower⟩

/-- Helper for `pySplit`: split a character list at every separator character. -/
def pySplitAux (p : Char → Bool) (cur : List Char) : List Char → List (List Char)
  | [] => [cur.reverse]
  | c :: cs => if p c then cur.reverse :: pySplitAux p [] cs else pySplitAux p (c :: cur) cs

/-- Python's `str.split()` with no argument: split on whitespace and drop
empty pieces. -/
def pySplit (s : String) : List String :=
  ((pySplitAux Char.isWhitespace [] s.data).map String.mk).filter (fun w => w ≠ "")

/-- Python's `repr` of a string without quotes or backslashes (all strings in
the knowledge base are such): the text wrapped in single quotes. -/
def pyRepr (s : String) : String :=
  String.singleton (Char.ofNat 39) ++ s ++ String.singleton (Char.ofNat 39)

/-- Python's `str(listOfStrings)`: `['a', 'b']`-style rendering, as used by
`_calculate_confidence` on `principle_data["keywords"]`. -/
def pyStrList (l : List String) : String :=
  "[" ++ String.intercalate ", " (l.map pyRepr) ++ "]"

/-- A `{"zh": ..., "en": ...}` bilingual field of a principle record. -/
structure Loc (α : Type) where
  zh : α
  en : α
deriving DecidableEq

/-- One record of `_load_principles` (the fields the engine reads;
`applications`/`implementation`/`benefits` are present on some records but
never read by the analysis code). -/
structure PrincipleData where
  name : Loc String
  description : Loc String
  detailed : Loc String
  examples : Loc (List String)
  category : Loc String
  keywords : List String
deriving DecidableEq

/-- The `Solution` dataclass. -/
structure Solution where
  principle : String
  principle_id : Nat
  description : String
  detailed_explanation : String
  examples : List String
  confidence : ℚ
  relevance_score : ℚ
  category : String
  tags : List String
deriving DecidableEq

/-- `get_principle_text`: pick the field for the current language
(`field.get(lang, field.get("zh", ...))`, i.e. anything but `"en"` falls
back to `"zh"`). -/
def get_principle_text {α : Type} (lang : String) (field : Loc α) : α :=
  if lang == "en" then field.en else field.zh

/-- Principle record 1 of `_load_principles`. -/
def principle_1 : PrincipleData := ⟨
  ⟨"分割", "Segmentation"⟩,
  ⟨"将对象分成独立的部分", "Divide an object into independent parts"⟩,
  ⟨"将物体分解为独立的部分，使各部分易于拆卸和组装，增加分解的程度。这种方法可以提高系统的灵活性、可维护性和可扩展性。", "Divide an object into independent parts, make parts easy to disassemble and assemble. This approach improves system flexibility, maintainability and scalability."⟩,
  ⟨["模块化设计", "可拆卸家具", "组件化软件架构", "微服务架构"], ["Modular design", "Detachable furniture", "Component architecture", "Microservices"]⟩,
  ⟨"结构优化", "Structure Optimization"⟩,
  ["模块", "组件", "分离", "独立", "拆分"]⟩

/-- Principle record 2 of `_load_principles`. -/
def principle_2 : PrincipleData := ⟨
  ⟨"抽取", "Taking out"⟩,
  ⟨"从对象中取出干扰的部分或特性", "Separate an interfering part or property from an object"⟩,
  ⟨"分离出有害或不必要的部分/特性，或相反，单独分离出有用的部分/特性。这种方法通过消除干扰因素来提高系统效率。", "Separate harmful or unnecessary parts, or conversely, separate useful parts. This method improves system efficiency by eliminating interfering factors."⟩,
  ⟨["噪音消除", "杂质过滤", "核心功能提取", "异常处理隔离"], ["Noise cancellation", "Impurity filtering", "Core function extraction", "Exception isolation"]⟩,
  ⟨"功能优化", "Function Optimization"⟩,
  ["提取", "分离", "净化", "隔离", "筛选"]⟩

/-- Principle record 3 of `_load_principles`. -/
def principle_3 : PrincipleData := ⟨
  ⟨"局部质量", "Local quality"⟩,
  ⟨"使对象的不同部分具有不同功能", "Make different parts of an object have different functions"⟩,
  ⟨"从均匀结构转变为非均匀结构，使对象或系统的各个部分具有各自最适合的功能", "Change from uniform to non-uniform structure, make each part optimal for its function"⟩,
  ⟨["人体工学设计", "差异化服务", "定制化功能", "局部优化"], ["Ergonomic design", "Differentiated services", "Customized functions", "Local optimization"]⟩,
  ⟨"结构优化", "Structure Optimization"⟩,
  ["差异", "定制", "局部", "专用", "适配"]⟩

/-- Principle record 4 of `_load_principles`. -/
def principle_4 : PrincipleData := ⟨
  ⟨"不对称", "Asymmetry"⟩,
  ⟨"从对称转变为不对称", "Change from symmetrical to asymmetrical"⟩,
  ⟨"如果对象已经是不对称的，增加其不对称程度", "If an object is already asymmetrical, increase its degree of asymmetry"⟩,
  ⟨["不对称设计", "差异化布局", "非均匀分布", "倾斜结构"], ["Asymmetric design", "Differential layout", "Non-uniform distribution", "Tilted structure"]⟩,
  ⟨"结构优化", "Structure Optimization"⟩,
  ["不对称", "倾斜", "偏移", "非均匀", "差异"]⟩

/-- Principle record 5 of `_load_principles`. -/
def principle_5 : PrincipleData := ⟨
  ⟨"合并", "Merging"⟩,
  ⟨"合并相同或相似的对象", "Merge identical or similar objects"⟩,
  ⟨"在空间上合并相同的对象或设计用于相同操作的对象", "Merge identical objects spatially or design objects for identical operations"⟩,
  ⟨["功能合并", "资源整合", "统一接口", "集成设计"], ["Function merging", "Resource integration", "Unified interface", "Integrated design"]⟩,
  ⟨"结构优化", "Structure Optimization"⟩,
  ["合并", "整合", "统一", "集成", "融合"]⟩

/-- Principle record 6 of `_load_principles`. -/
def principle_6 : PrincipleData := ⟨
  ⟨"通用性", "Universality"⟩,
  ⟨"使对象能够执行多种功能", "Make an object perform multiple functions"⟩,
  ⟨"使对象能执行多种功能，从而不需要其他对象", "Make an object perform multiple functions, eliminating the need for other objects"⟩,
  ⟨["多功能工具", "通用接口", "平台化设计", "标准化组件"], ["Multi-function tools", "Universal interface", "Platform design", "Standardized components"]⟩,
  ⟨"功能优化", "Function Optimization"⟩,
  ["通用", "多功能", "万能", "标准", "兼容"]⟩

/-- Principle record 7 of `_load_principles`. -/
def principle_7 : PrincipleData := ⟨
  ⟨"嵌套", "Nesting"⟩,
  ⟨"将一个对象放置在另一个对象内部", "Place one object inside another"⟩,
  ⟨"将一个对象放在另一个对象的内部，后者再放在第三个对象的内部，以此类推", "Place one object inside another, which is placed inside a third, and so on"⟩,
  ⟨["嵌套结构", "层次设计", "递归调用", "分层架构"], ["Nested structure", "Hierarchical design", "Recursive calls", "Layered architecture"]⟩,
  ⟨"结构优化", "Structure Optimization"⟩,
  ["嵌套", "层次", "递归", "包含", "内嵌"]⟩

/-- Principle record 8 of `_load_principles`. -/
def principle_8 : PrincipleData := ⟨
  ⟨"反重量", "Anti-weight"⟩,
  ⟨"通过与其他对象合并来补偿重量", "Compensate for weight by merging with other objects"⟩,
  ⟨"通过与具有升力的其他对象合并来补偿对象的重量", "Compensate for the weight of an object by merging with other objects that provide lift"⟩,
  ⟨["重量平衡", "浮力利用", "反向力", "平衡设计"], ["Weight balance", "Buoyancy utilization", "Counter force", "Balanced design"]⟩,
  ⟨"力学优化", "Mechanical Optimization"⟩,
  ["平衡", "浮力", "反向", "补偿", "抵消"]⟩

/-- Principle record 9 of `_load_principles`. -/
def principle_9 : PrincipleData := ⟨
  ⟨"预先反作用", "Preliminary anti-action"⟩,
  ⟨"提前进行反作用", "Perform anti-action in advance"⟩,
  ⟨"如果需要同时进行一个作用和它的反作用，预先进行反作用", "If an action and its counter-action are needed, perform the counter-action in advance"⟩,
  ⟨["预防措施", "预先补偿", "反向操作", "提前处理"], ["Preventive measures", "Pre-compensation", "Reverse operation", "Advance processing"]⟩,
  ⟨"控制优化", "Control Optimization"⟩,
  ["预先", "反向", "预防", "补偿", "提前"]⟩

/-- Principle record 10 of `_load_principles`. -/
def principle_10 : PrincipleData := ⟨
  ⟨"预先作用", "Preliminary action"⟩,
  ⟨"预先进行所需的变化", "Perform required changes in advance"⟩,
  ⟨"预先进行对象的全部或部分所需变化", "Perform the required change of an object (fully or partially) in advance"⟩,
  ⟨["预处理", "预配置", "预加载", "提前准备"], ["Preprocessing", "Pre-configuration", "Preloading", "Advance preparation"]⟩,
  ⟨"控制优化", "Control Optimization"⟩,
  ["预先", "提前", "预处理", "准备", "预配置"]⟩

/-- Principle record 11 of `_load_principles`. -/
def principle_11 : PrincipleData := ⟨
  ⟨"事先缓解", "Beforehand cushioning"⟩,
  ⟨"事先准备应急手段", "Prepare emergency means beforehand"⟩,
  ⟨"通过事先准备应急手段来补偿对象相对较低的可靠性", "Compensate for relatively low reliability of an object by emergency means prepared beforehand"⟩,
  ⟨["备份系统", "应急预案", "故障转移", "冗余设计"], ["Backup systems", "Emergency plans", "Failover", "Redundant design"]⟩,
  ⟨"可靠性优化", "Reliability Optimization"⟩,
  ["备份", "应急", "冗余", "故障转移", "预案"]⟩

/-- Principle record 12 of `_load_principles`. -/
def principle_12 : PrincipleData := ⟨
  ⟨"等势", "Equipotentiality"⟩,
  ⟨"在重力场中改变工作条件", "Change working conditions in gravitational field"⟩,
  ⟨"在重力场中改变工作条件，以消除升降对象的需要", "Change working conditions in gravitational field to eliminate the need to raise or lower objects"⟩,
  ⟨["水平移动", "等高设计", "重力平衡", "水平传输"], ["Horizontal movement", "Level design", "Gravity balance", "Horizontal transport"]⟩,
  ⟨"力学优化", "Mechanical Optimization"⟩,
  ["水平", "等高", "平衡", "重力", "传输"]⟩

/-- Principle record 13 of `_load_principles`. -/
def principle_13 : PrincipleData := ⟨
  ⟨"反向", "Inversion"⟩,
  ⟨"颠倒行动或过程", "Invert the action or process"⟩,
  ⟨"颠倒用来解决问题的行动：使可动部分固定，使固定部分可动", "Invert the action used to solve the problem: make movable parts fixed and fixed parts movable"⟩,
  ⟨["反向思维", "逆向工程", "颠倒顺序", "反向操作"], ["Reverse thinking", "Reverse engineering", "Inverted order", "Reverse operation"]⟩,
  ⟨"思维优化", "Thinking Optimization"⟩,
  ["反向", "逆向", "颠倒", "相反", "倒置"]⟩

/-- Principle record 14 of `_load_principles`. -/
def principle_14 : PrincipleData := ⟨
  ⟨"球面化", "Spheroidality"⟩,
  ⟨"用球面代替线性部分", "Replace linear parts with spherical ones"⟩,
  ⟨"用弯曲的表面代替直线部分；用球体、椭球体、抛物面等代替立方体", "Replace linear parts with curved surfaces; replace cubes with spheres, ellipsoids, paraboloids"⟩,
  ⟨["圆滑设计", "球形结构", "曲面界面", "圆角处理"], ["Smooth design", "Spherical structure", "Curved interface", "Rounded corners"]⟩,
  ⟨"结构优化", "Structure Optimization"⟩,
  ["球形", "圆滑", "曲面", "圆角", "弯曲"]⟩

/-- Principle record 15 of `_load_principles`. -/
def principle_15 : PrincipleData := ⟨
  ⟨"动态性", "Dynamics"⟩,
  ⟨"使对象或系统能够自动适应工作的最佳状态", "Make an object or system adapt automatically to optimal working conditions"⟩,
  ⟨"对象的特性应改变，以便在工作的每个阶段都是最佳的；将对象分成能够相互移动的部分", "Characteristics of an object should change to be optimal in each stage of operation; divide an object into parts capable of movement"⟩,
  ⟨["自适应系统", "动态调整", "智能响应", "弹性伸缩"], ["Adaptive systems", "Dynamic adjustment", "Smart response", "Elastic scaling"]⟩,
  ⟨"适应性优化", "Adaptability Optimization"⟩,
  ["动态", "自适应", "调整", "变化", "响应"]⟩

/-- Principle record 16 of `_load_principles`. -/
def principle_16 : PrincipleData := ⟨
  ⟨"部分或过度的行动", "Partial or excessive actions"⟩,
  ⟨"采用部分或过度的行动", "Use partial or excessive actions"⟩,
  ⟨"如果很难获得100%的期望效果，应该获得稍多一点或稍少一点", "If it\x27s hard to get 100% of desired effect, get slightly more or slightly less"⟩,
  ⟨["过度设计", "分步实现", "渐进优化", "阶段达成"], ["Over-engineering", "Step-by-step implementation", "Progressive optimization", "Phased achievement"]⟩,
  ⟨"控制优化", "Control Optimization"⟩,
  ["部分", "过度", "渐进", "阶段", "分步"]⟩

/-- Principle record 17 of `_load_principles`. -/
def principle_17 : PrincipleData := ⟨
  ⟨"另一个维度", "Another dimension"⟩,
  ⟨"移到另一个维度", "Move to another dimension"⟩,
  ⟨"沿着垂直于给定方向的路径移动或布置对象", "Move or arrange objects along a path perpendicular to the given direction"⟩,
  ⟨["三维思维", "垂直布局", "立体设计", "多维空间"], ["3D thinking", "Vertical layout", "Spatial design", "Multi-dimensional space"]⟩,
  ⟨"空间优化", "Spatial Optimization"⟩,
  ["维度", "垂直", "立体", "空间", "方向"]⟩

/-- Principle record 18 of `_load_principles`. -/
def principle_18 : PrincipleData := ⟨
  ⟨"机械振动", "Mechanical vibration"⟩,
  ⟨"使对象振动", "Make an object oscillate"⟩,
  ⟨"使对象振动；增加其振动频率；使用超声频率；使用共振频率", "Make an object oscillate; increase its frequency; use ultrasonic frequency; use resonant frequency"⟩,
  ⟨["振动清理", "超声波", "共振技术", "振动传输"], ["Vibration cleaning", "Ultrasonic", "Resonance technology", "Vibration transmission"]⟩,
  ⟨"物理优化", "Physical Optimization"⟩,
  ["振动", "频率", "超声", "共振", "波动"]⟩

/-- Principle record 19 of `_load_principles`. -/
def principle_19 : PrincipleData := ⟨
  ⟨"周期性行动", "Periodic action"⟩,
  ⟨"用周期性行动代替连续行动", "Replace continuous action with periodic action"⟩,
  ⟨"用周期性或脉冲行动代替连续行动；如果行动已经是周期性的，改变其周期性", "Replace continuous action with periodic or pulsing action; if already periodic, change the periodicity"⟩,
  ⟨["定期维护", "脉冲信号", "周期检查", "间歇操作"], ["Regular maintenance", "Pulse signals", "Periodic checks", "Intermittent operation"]⟩,
  ⟨"时间优化", "Time Optimization"⟩,
  ["周期", "脉冲", "间歇", "定期", "循环"]⟩

/-- Principle record 20 of `_load_principles`. -/
def principle_20 : PrincipleData := ⟨
  ⟨"有用行动的连续性", "Continuity of useful action"⟩,
  ⟨"连续进行有用的行动", "Carry on useful action continuously"⟩,
  ⟨"连续进行工作，使对象的所有部分始终以全负荷工作", "Carry on work continuously; make all parts of an object work at full load all the time"⟩,
  ⟨["持续运行", "全负荷工作", "连续生产", "不间断服务"], ["Continuous operation", "Full load work", "Continuous production", "Uninterrupted service"]⟩,
  ⟨"效率优化", "Efficiency Optimization"⟩,
  ["连续", "持续", "全负荷", "不间断", "满载"]⟩

/-- Principle record 21 of `_load_principles`. -/
def principle_21 : PrincipleData := ⟨
  ⟨"急速", "Skipping"⟩,
  ⟨"高速执行有害或危险的过程", "Conduct a process or certain stages at high speed"⟩,
  ⟨"高速执行有害或危险的过程", "Conduct a process, or certain stages (e.g., harmful or hazardous ones) at high speed"⟩,
  ⟨["快速处理", "高速通过", "急速完成", "瞬间操作"], ["Rapid processing", "High-speed transit", "Quick completion", "Instant operation"]⟩,
  ⟨"速度优化", "Speed Optimization"⟩,
  ["快速", "高速", "急速", "瞬间", "迅速"]⟩

/-- Principle record 22 of `_load_principles`. -/
def principle_22 : PrincipleData := ⟨
  ⟨"变害为利", "Blessing in disguise"⟩,
  ⟨"利用有害因素获得积极效果", "Use harmful factors to achieve positive effects"⟩,
  ⟨"利用有害因素获得积极效果；通过有害因素与其他有害因素结合来消除有害性", "Use harmful factors to achieve positive effects; eliminate harm by combining with other harmful factors"⟩,
  ⟨["废物利用", "负负得正", "转危为机", "化害为益"], ["Waste utilization", "Two negatives make positive", "Turn crisis into opportunity", "Transform harm into benefit"]⟩,
  ⟨"转化优化", "Transformation Optimization"⟩,
  ["转化", "利用", "废物", "化害", "变废"]⟩

/-- Principle record 23 of `_load_principles`. -/
def principle_23 : PrincipleData := ⟨
  ⟨"反馈", "Feedback"⟩,
  ⟨"引入反馈", "Introduce feedback"⟩,
  ⟨"引入反馈以改进过程或行动；如果反馈已经存在，改变其幅度或影响", "Introduce feedback to improve a process or action; if feedback exists, change its magnitude or influence"⟩,
  ⟨["反馈控制", "闭环系统", "自我调节", "监控反馈"], ["Feedback control", "Closed-loop system", "Self-regulation", "Monitoring feedback"]⟩,
  ⟨"控制优化", "Control Optimization"⟩,
  ["反馈", "闭环", "监控", "调节", "回路"]⟩

/-- Principle record 24 of `_load_principles`. -/
def principle_24 : PrincipleData := ⟨
  ⟨"中介", "Intermediary"⟩,
  ⟨"使用中介对象或过程", "Use an intermediary object or process"⟩,
  ⟨"使用中介对象或过程；暂时将对象与另一个容易去除的对象合并", "Use an intermediary object or process; merge one object temporarily with another easily removed one"⟩,
  ⟨["中间层", "代理模式", "缓冲区", "转接器"], ["Intermediate layer", "Proxy pattern", "Buffer", "Adapter"]⟩,
  ⟨"结构优化", "Structure Optimization"⟩,
  ["中介", "代理", "缓冲", "中间", "转接"]⟩

/-- Principle record 25 of `_load_principles`. -/
def principle_25 : PrincipleData := ⟨
  ⟨"自服务", "Self-service"⟩,
  ⟨"对象应该自己为自己服务", "Make an object serve itself"⟩,
  ⟨"使对象自己为自己服务，执行辅助和维修操作", "Make an object serve itself by performing auxiliary and repair operations"⟩,
  ⟨["自动化", "自修复", "自适应", "自主管理"], ["Automation", "Self-repair", "Self-adaptation", "Self-management"]⟩,
  ⟨"自动化优化", "Automation Optimization"⟩,
  ["自动", "自主", "自服务", "自修复", "自适应"]⟩

/-- Principle record 26 of `_load_principles`. -/
def principle_26 : PrincipleData := ⟨
  ⟨"复制", "Copying"⟩,
  ⟨"使用简单而廉价的复制品", "Use simple and inexpensive copies"⟩,
  ⟨"使用简单而廉价的复制品代替不可获得、昂贵或脆弱的对象", "Use simple and inexpensive copies instead of unavailable, expensive, or fragile objects"⟩,
  ⟨["模拟器", "虚拟现实", "数字孪生", "仿真模型"], ["Simulator", "Virtual reality", "Digital twin", "Simulation model"]⟩,
  ⟨"替代优化", "Substitution Optimization"⟩,
  ["复制", "模拟", "仿真", "虚拟", "孪生"]⟩

/-- Principle record 27 of `_load_principles`. -/
def principle_27 : PrincipleData := ⟨
  ⟨"廉价替代", "Cheap short-living objects"⟩,
  ⟨"用便宜的对象代替昂贵的对象", "Replace expensive objects with cheap ones"⟩,
  ⟨"用便宜的对象来代替昂贵的，在某些特性（如使用寿命）上有所损失", "Replace expensive objects with cheap ones, compromising on certain qualities (like service life)"⟩,
  ⟨["开源替代", "低成本方案", "简化版本", "经济型设计"], ["Open source alternatives", "Low-cost solutions", "Simplified versions", "Economy design"]⟩,
  ⟨"成本优化", "Cost Optimization"⟩,
  ["廉价", "替代", "经济", "低成本", "简化"]⟩

/-- Principle record 28 of `_load_principles`. -/
def principle_28 : PrincipleData := ⟨
  ⟨"机械系统替代", "Mechanics substitution"⟩,
  ⟨"用其他感知系统替代机械系统", "Replace mechanical systems with sensory ones"⟩,
  ⟨"用光学、声学或嗅觉系统替代机械系统", "Replace mechanical systems with optical, acoustic, or olfactory systems"⟩,
  ⟨["传感器检测", "光学识别", "声音监控", "智能感知"], ["Sensor detection", "Optical recognition", "Sound monitoring", "Smart sensing"]⟩,
  ⟨"技术替代", "Technology Substitution"⟩,
  ["传感器", "光学", "声学", "感知", "检测"]⟩

/-- Principle record 29 of `_load_principles`. -/
def principle_29 : PrincipleData := ⟨
  ⟨"气动和液压结构", "Pneumatics and hydraulics"⟩,
  ⟨"使用气动和液压结构", "Use pneumatic and hydraulic constructions"⟩,
  ⟨"用气体和液体部分代替对象的固体部分", "Use gas and liquid parts instead of solid parts of an object"⟩,
  ⟨["气动控制", "液压系统", "流体驱动", "软体机器人"], ["Pneumatic control", "Hydraulic systems", "Fluid drive", "Soft robotics"]⟩,
  ⟨"物理替代", "Physical Substitution"⟩,
  ["气动", "液压", "流体", "软体", "柔性"]⟩

/-- Principle record 30 of `_load_principles`. -/
def principle_30 : PrincipleData := ⟨
  ⟨"柔性壳体和薄膜", "Flexible shells and thin films"⟩,
  ⟨"使用柔性壳体和薄膜", "Use flexible shells and thin films"⟩,
  ⟨"用柔性壳体和薄膜代替通常的结构", "Use flexible shells and thin films instead of three-dimensional structures"⟩,
  ⟨["薄膜材料", "柔性屏幕", "软包装", "弹性外壳"], ["Film materials", "Flexible screens", "Soft packaging", "Elastic shells"]⟩,
  ⟨"材料优化", "Material Optimization"⟩,
  ["柔性", "薄膜", "软包装", "弹性", "膜结构"]⟩

/-- Principle record 31 of `_load_principles`. -/
def principle_31 : PrincipleData := ⟨
  ⟨"多孔材料", "Porous materials"⟩,
  ⟨"使对象多孔或添加多孔元素", "Make objects porous or add porous elements"⟩,
  ⟨"使对象多孔或添加多孔元素；如果对象已经多孔，预先用某种物质填充孔隙", "Make objects porous or add porous elements; if already porous, fill pores with some substance"⟩,
  ⟨["多孔结构", "蜂窝材料", "泡沫材料", "过滤材料"], ["Porous structure", "Honeycomb materials", "Foam materials", "Filter materials"]⟩,
  ⟨"材料优化", "Material Optimization"⟩,
  ["多孔", "蜂窝", "泡沫", "过滤", "透气"]⟩

/-- Principle record 32 of `_load_principles`. -/
def principle_32 : PrincipleData := ⟨
  ⟨"颜色改变", "Color changes"⟩,
  ⟨"改变对象或其环境的颜色", "Change the color of an object or its external environment"⟩,
  ⟨"改变对象或其环境的颜色；改变对象或其环境的透明度", "Change the color of an object or its environment; change the transparency of an object or its environment"⟩,
  ⟨["颜色编码", "状态指示", "可视化反馈", "透明度调节"], ["Color coding", "Status indication", "Visual feedback", "Transparency adjustment"]⟩,
  ⟨"视觉优化", "Visual Optimization"⟩,
  ["颜色", "透明", "可视", "编码", "指示"]⟩

/-- Principle record 33 of `_load_principles`. -/
def principle_33 : PrincipleData := ⟨
  ⟨"同质性", "Homogeneity"⟩,
  ⟨"使与主要对象相互作用的对象由相同的材料制成", "Make objects interacting with a given object of the same material"⟩,
  ⟨"使与主要对象相互作用的对象由相同的材料制成", "Make objects interacting with a given object of the same material or material with identical properties"⟩,
  ⟨["材料统一", "兼容性设计", "同质化", "一致性"], ["Material unification", "Compatibility design", "Homogenization", "Consistency"]⟩,
  ⟨"材料优化", "Material Optimization"⟩,
  ["同质", "统一", "兼容", "一致", "相同"]⟩

/-- Principle record 34 of `_load_principles`. -/
def principle_34 : PrincipleData := ⟨
  ⟨"丢弃和再生", "Discarding and recovering"⟩,
  ⟨"使完成功能的部分消失", "Make portions of an object disappear after fulfilling their functions"⟩,
  ⟨"使完成功能的对象部分消失或在过程中直接修改", "Make portions of an object that have fulfilled their functions disappear or modify them during the process"⟩,
  ⟨["一次性组件", "可降解材料", "临时结构", "消耗性部件"], ["Disposable components", "Degradable materials", "Temporary structures", "Consumable parts"]⟩,
  ⟨"生命周期优化", "Lifecycle Optimization"⟩,
  ["一次性", "降解", "临时", "消耗", "消失"]⟩

/-- Principle record 35 of `_load_principles`. -/
def principle_35 : PrincipleData := ⟨
  ⟨"参数改变", "Parameter changes"⟩,
  ⟨"改变对象的物理或化学状态", "Change the physical or chemical state of an object"⟩,
  ⟨"改变对象的物理或化学状态；改变浓度或稠度；改变柔性的程度；改变温度", "Change physical or chemical state; change concentration or consistency; change degree of flexibility; change temperature"⟩,
  ⟨["状态转换", "参数调整", "相变利用", "属性修改"], ["State transition", "Parameter adjustment", "Phase change utilization", "Property modification"]⟩,
  ⟨"状态优化", "State Optimization"⟩,
  ["状态", "参数", "转换", "调整", "修改"]⟩

/-- Principle record 36 of `_load_principles`. -/
def principle_36 : PrincipleData := ⟨
  ⟨"相变", "Phase transitions"⟩,
  ⟨"利用相变现象", "Use phenomena occurring during phase transitions"⟩,
  ⟨"利用相变过程中发生的现象，如体积变化、热量释放或吸收", "Use phenomena occurring during phase transitions: volume changes, heat liberation or absorption"⟩,
  ⟨["相变材料", "热管技术", "蒸发冷却", "凝固成型"], ["Phase change materials", "Heat pipe technology", "Evaporative cooling", "Solidification forming"]⟩,
  ⟨"物理优化", "Physical Optimization"⟩,
  ["相变", "体积", "热量", "蒸发", "凝固"]⟩

/-- Principle record 37 of `_load_principles`. -/
def principle_37 : PrincipleData := ⟨
  ⟨"热膨胀", "Thermal expansion"⟩,
  ⟨"利用材料的热膨胀或收缩", "Use thermal expansion or contraction of materials"⟩,
  ⟨"利用材料的热膨胀或收缩；如果已经使用热膨胀，使用各种材料的不同热膨胀系数", "Use thermal expansion or contraction; if already using thermal expansion, use different coefficients of thermal expansion"⟩,
  ⟨["热敏元件", "双金属片", "热补偿", "温控开关"], ["Thermal elements", "Bimetallic strips", "Thermal compensation", "Temperature switches"]⟩,
  ⟨"热学优化", "Thermal Optimization"⟩,
  ["热膨胀", "收缩", "热敏", "双金属", "温控"]⟩

/-- Principle record 38 of `_load_principles`. -/
def principle_38 : PrincipleData := ⟨
  ⟨"强氧化剂", "Strong oxidants"⟩,
  ⟨"使用强氧化剂", "Use strong oxidants"⟩,
  ⟨"用富氧空气代替普通空气；用氧气代替富氧空气；用电离辐射作用于空气或氧气", "Replace common air with oxygen-enriched air; replace enriched air with oxygen; use ionizing radiation on air or oxygen"⟩,
  ⟨["氧化处理", "富氧燃烧", "等离子体", "电离辐射"], ["Oxidation treatment", "Oxygen-enriched combustion", "Plasma", "Ionizing radiation"]⟩,
  ⟨"化学优化", "Chemical Optimization"⟩,
  ["氧化", "富氧", "等离子", "电离", "辐射"]⟩

/-- Principle record 39 of `_load_principles`. -/
def principle_39 : PrincipleData := ⟨
  ⟨"惰性气氛", "Inert atmosphere"⟩,
  ⟨"用惰性气氛代替普通环境", "Replace a normal environment with an inert one"⟩,
  ⟨"用惰性气氛代替普通环境；在真空中进行过程", "Replace a normal environment with an inert one; add neutral parts or inert additives to an object"⟩,
  ⟨["惰性保护", "真空环境", "充氮保护", "无氧处理"], ["Inert protection", "Vacuum environment", "Nitrogen protection", "Oxygen-free processing"]⟩,
  ⟨"环境优化", "Environment Optimization"⟩,
  ["惰性", "真空", "充氮", "无氧", "保护"]⟩

/-- Principle record 40 of `_load_principles`. -/
def principle_40 : PrincipleData := ⟨
  ⟨"复合材料", "Composite materials"⟩,
  ⟨"用复合材料代替均质材料", "Replace homogeneous materials with composite ones"⟩,
  ⟨"从均质材料转向复合材料", "Change from homogeneous to composite materials"⟩,
  ⟨["复合材料", "多层结构", "混合系统", "组合方案"], ["Composite materials", "Multi-layer structure", "Hybrid systems", "Combined solutions"]⟩,
  ⟨"材料优化", "Material Optimization"⟩,
  ["复合", "多层", "混合", "组合", "复杂"]⟩

/-- `_load_principles`: the 40-principle knowledge base (fields read by the engine). -/
def principles : List (Nat × PrincipleData) :=
  [(1, principle_1),
   (2, principle_2),
   (3, principle_3),
   (4, principle_4),
   (5, principle_5),
   (6, principle_6),
   (7, principle_7),
   (8, principle_8),
   (9, principle_9),
   (10, principle_10),
   (11, principle_11),
   (12, principle_12),
   (13, principle_13),
   (14, principle_14),
   (15, principle_15),
   (16, principle_16),
   (17, principle_17),
   (18, principle_18),
   (19, principle_19),
   (20, principle_20),
   (21, principle_21),
   (22, principle_22),
   (23, principle_23),
   (24, principle_24),
   (25, principle_25),
   (26, principle_26),
   (27, principle_27),
   (28, principle_28),
   (29, principle_29),
   (30, principle_30),
   (31, principle_31),
   (32, principle_32),
   (33, principle_33),
   (34, principle_34),
   (35, principle_35),
   (36, principle_36),
   (37, principle_37),
   (38, principle_38),
   (39, principle_39),
   (40, principle_40)]


/-- `_load_matrix`: the extended technical contradiction matrix. -/
def contradiction_matrix : List ((String × String) × List Nat) := [
  (("重量", "强度"), [1, 8, 15, 40]),
  (("重量", "速度"), [2, 14, 15, 35]),
  (("强度", "重量"), [1, 8, 36, 40]),
  (("复杂性", "可靠性"), [1, 26, 27, 40]),
  (("精度", "速度"), [10, 18, 32, 39]),
  (("成本", "质量"), [13, 26, 27, 35]),
  (("能耗", "效率"), [2, 6, 19, 36]),
  (("体积", "功能"), [7, 17, 29, 40]),
  (("速度", "精度"), [10, 18, 32, 39]),
  (("安全", "便利"), [11, 24, 25, 35]),
  (("自动化", "成本"), [25, 26, 27, 35]),
  (("智能化", "可靠性"), [15, 23, 25, 35]),
  (("维护", "复杂性"), [1, 2, 25, 35]),
  (("可靠性", "复杂性"), [1, 11, 25, 27]),
  (("性能", "成本"), [1, 2, 27, 35]),
  (("效率", "安全"), [11, 23, 25, 35])
]

/-- `_load_parameter_keywords`: parameter-name to keyword-list mapping. -/
def parameter_keywords : List (String × List String) := [
  ("重量", ["重", "轻", "质量", "重量", "载重"]),
  ("强度", ["强度", "硬度", "刚性", "坚固", "耐用"]),
  ("速度", ["快", "慢", "速度", "效率", "响应"]),
  ("精度", ["精确", "准确", "精度", "误差", "偏差"]),
  ("成本", ["价格", "费用", "成本", "便宜", "昂贵"]),
  ("质量", ["质量", "品质", "优质", "可靠", "稳定"]),
  ("复杂性", ["复杂", "简单", "复杂度", "难度", "繁琐"]),
  ("体积", ["大小", "体积", "尺寸", "占地", "空间"]),
  ("安全", ["安全", "危险", "风险", "保护", "防护"]),
  ("效率", ["效率", "性能", "生产率", "吞吐量", "产能"]),
  ("可靠性", ["可靠", "稳定", "故障", "失效", "持久"]),
  ("维护", ["维护", "保养", "修理", "维修", "检修"]),
  ("自动化", ["自动", "手动", "机械", "智能", "控制"]),
  ("功能性", ["功能", "特性", "能力", "用途", "作用"])
]

/-- `_load_problem_categories`: problem-category to keyword-list mapping. -/
def problem_categories : List (String × List String) := [
  ("Technical Problem", ["技术", "系统", "设备", "机器", "算法", "软件"]),
  ("Design Problem", ["设计", "外观", "结构", "布局", "界面", "造型"]),
  ("Cost Problem", ["成本", "价格", "费用", "预算", "经济", "投资"]),
  ("User Problem", ["用户", "客户", "体验", "需求", "满意", "使用"]),
  ("Quality Problem", ["质量", "缺陷", "故障", "错误", "问题", "不良"])
]

/-- `_smart_parameter_detection`: parameter names whose keyword list has a
substring hit in the lower-cased text, in table order. -/
def smart_parameter_detection (text : String) : List String :=
  (parameter_keywords.filter
    (fun pk => pk.2.any (fun kw => strContains (pyLower text) kw))).map Prod.fst

/-- `_categorize_problem`: first category whose keyword list has a substring
hit, else `"General Problem"`. -/
def categorize_problem (problem : String) : String :=
  match problem_categories.find?
      (fun ck => ck.2.any (fun kw => strContains (pyLower problem) kw)) with
  | some ck => ck.1
  | none => "General Problem"

/-- The literal `recommendations` table inside `_get_smart_recommendations`. -/
def recommendations : List (String × List Nat) :=
  [("Technical Problem", [1, 2, 15, 35, 40]),
   ("Design Problem", [1, 3, 15, 27, 35]),
   ("Cost Problem", [27, 35, 1, 2, 40]),
   ("User Problem", [6, 15, 25, 27, 35]),
   ("Quality Problem", [1, 2, 15, 35, 40])]

/-- The global default principle-id list (the `.get` default in
`_get_smart_recommendations`). -/
def default_recommendations : List Nat := [1, 2, 15, 27, 35]

/-- `_get_smart_recommendations` (its `improving`/`worsening` arguments are
accepted but unused, as in the source). -/
def get_smart_recommendations (problem improving worsening : String) : List Nat :=
  (recommendations.lookup (categorize_problem problem)).getD default_recommendations

/-- The parameter auto-detection prologue of `analyze_problem`
(`if not improving or not worsening: ...`); Python's `x or y` on strings
takes `y` exactly when `x` is empty. -/
def autodetect_params (problem improving worsening : String) : String × String :=
  if improving = "" ∨ worsening = "" then
    match smart_parameter_detection problem with
    | p1 :: p2 :: _ =>
        (if improving = "" then p1 else improving,
         if worsening = "" then p2 else worsening)
    | [p1] =>
        (if improving = "" then p1 else improving,
         if worsening = "" then "复杂性" else worsening)
    | [] => (improving, worsening)
  else (improving, worsening)

/-- Python's `x or y` where `x`, `y` are `dict.get` results on the matrix:
`None` and the empty list are falsey. -/
def pyOrList (x y : Option (List Nat)) : Option (List Nat) :=
  match x with
  | none => y
  | some v => if v.isEmpty then y else some v

/-- The matrix lookup of `analyze_problem`:
`matrix.get((improving.lower(), worsening.lower())) or matrix.get(reversed)`. -/
def lookup_matrix (m : List ((String × String) × List Nat))
    (improving worsening : String) : Option (List Nat) :=
  pyOrList (m.lookup (pyLower improving, pyLower worsening))
    (m.lookup (pyLower worsening, pyLower improving))

/-- Candidate-id resolution of `analyze_problem`: the matrix lookup, and the
`if not principle_ids` fallback to `_get_smart_recommendations`. -/
def resolve_candidates (m : List ((String × String) × List Nat))
    (problem improving worsening : String) : List Nat :=
  match lookup_matrix m improving worsening with
  | some v => if v.isEmpty then get_smart_recommendations problem improving worsening else v
  | none => get_smart_recommendations problem improving worsening

/-- `_calculate_confidence`. -/
def calculate_confidence (problem : String) (p : PrincipleData)
    (improving worsening : String) : ℚ :=
  let problem_lower := pyLower problem
  let keyword_matches : Nat := p.keywords.countP (fun kw => strContains problem_lower kw)
  let keyword_bonus : ℚ := min (3/10) ((keyword_matches : ℚ) * (1/10))
  let kwStr := pyLower (pyStrList p.keywords)
  let param_bonus : ℚ :=
    if strContains kwStr (pyLower improving) || strContains kwStr (pyLower worsening)
    then 1/10 else 0
  min (95/100) (6/10 + keyword_bonus + param_bonus)

/-- `_calculate_relevance` (the examples list is the current language's, via
`get_principle_text`; it is always a list, so the `isinstance` guard holds). -/
def calculate_relevance (lang problem : String) (p : PrincipleData) : ℚ :=
  let problem_lower := pyLower problem
  let keyword_score : Nat := p.keywords.countP (fun kw => strContains problem_lower kw)
  let examples := get_principle_text lang p.examples
  let example_score : Nat := examples.countP
    (fun ex => (pySplit (pyLower ex)).any (fun w => strContains problem_lower w))
  min 1 ((keyword_score : ℚ) * (2/10) + (example_score : ℚ) * (1/10))

/-- The generic template of `_generate_description`. -/
def generic_description (lang problem : String) (p : PrincipleData)
    (improving worsening : String) : String :=
  if lang == "zh" then
    "运用" ++ get_principle_text lang p.name ++ "原理（" ++
      get_principle_text lang p.description ++ "）来解决" ++ problem ++
      "，重点改善" ++ improving ++ "与" ++ worsening ++ "的平衡"
  else
    "Apply " ++ get_principle_text lang p.name ++ " principle (" ++
      get_principle_text lang p.description ++ ") to solve " ++ problem ++
      ", focusing on improving the balance between " ++ improving ++ " and " ++ worsening

/-- `_generate_description`: two special-cased principles for software/system
problems, otherwise the generic template. -/
def generate_description (lang problem : String) (p : PrincipleData)
    (improving worsening : String) : String :=
  let principle_name := get_principle_text lang p.name
  if strContains problem "软件" || strContains problem "系统" ||
     strContains (pyLower problem) "software" || strContains (pyLower problem) "system" then
    if strContains principle_name "分割" || strContains principle_name "Segmentation" then
      if lang == "zh" then
        "将" ++ problem ++ "进行模块化拆分，每个模块专注于特定功能，降低" ++
          worsening ++ "同时提升" ++ improving
      else
        "Apply modular decomposition to " ++ problem ++
          ", with each module focusing on specific functions, reducing " ++ worsening ++
          " while improving " ++ improving
    else if strContains principle_name "动态性" || strContains principle_name "Dynamics" then
      if lang == "zh" then
        "为" ++ problem ++ "添加自适应机制，根据实际需求动态调整，平衡" ++
          improving ++ "和" ++ worsening
      else
        "Add adaptive mechanisms to " ++ problem ++
          ", dynamically adjusting according to actual needs, balancing " ++ improving ++
          " and " ++ worsening
    else generic_description lang problem p improving worsening
  else generic_description lang problem p improving worsening

/-- `_generate_solution`. -/
def generate_solution (lang problem : String) (p : PrincipleData) (pid : Nat)
    (improving worsening : String) : Solution :=
  { principle := get_principle_text lang p.name
    principle_id := pid
    description := generate_description lang problem p improving worsening
    detailed_explanation := get_principle_text lang p.detailed
    examples := get_principle_text lang p.examples
    confidence := calculate_confidence problem p improving worsening
    relevance_score := calculate_relevance lang problem p
    category := get_principle_text lang p.category
    tags := p.keywords.take 3 }

/-- The ranking key `(confidence + relevance_score) / 2`. -/
def combined_score (s : Solution) : ℚ := (s.confidence + s.relevance_score) / 2

/-- Comparison used to model Python's stable `sorted(key=..., reverse=True)`:
strictly greater combined score first, ties by original position. -/
def rankLE (a b : Nat × Solution) : Bool :=
  decide (combined_score b.2 < combined_score a.2 ∨
    (combined_score a.2 = combined_score b.2 ∧ a.1 ≤ b.1))

/-- Pair every element with its position, starting at `n`. -/
def idxFrom {α : Type} (n : Nat) : List α → List (Nat × α)
  | [] => []
  | a :: as => (n, a) :: idxFrom (n + 1) as

/-- Insert into a `rankLE`-sorted list, before the first element the new
one ranks at-or-above. -/
def insertRank (a : Nat × Solution) : List (Nat × Solution) → List (Nat × Solution)
  | [] => [a]
  | b :: bs => if rankLE a b then a :: b :: bs else b :: insertRank a bs

/-- Stable sort by `rankLE` (insertion sort). -/
def rankSort : List (Nat × Solution) → List (Nat × Solution)
  | [] => []
  | a :: as => insertRank a (rankSort as)

/-- `sorted(solutions, key=lambda x: (x.confidence + x.relevance_score) / 2,
reverse=True)`: Python's sort is stable, so this is the stable descending
sort by combined score, modelled by sorting the position-decorated list with
`rankLE` (on distinct positions `rankLE` is a total antisymmetric order, so
the sorted result is unique and equals any stable descending sort). -/
def sortSolutions (l : List Solution) : List Solution :=
  (rankSort (idxFrom 0 l)).map Prod.snd

/-- The solution-expansion loop of `analyze_problem`: truncate the candidate
ids to `max_solutions`, keep those present in the principle table, and build
a `Solution` for each. -/
def expand_candidates (lang : String) (maxSolutions : Nat)
    (problem improving worsening : String) (principle_ids : List Nat) : List Solution :=
  (principle_ids.take maxSolutions).filterMap
    (fun pid => (principles.lookup pid).map
      (fun p => generate_solution lang problem p pid improving worsening))

/-- The pure result of `analyze_problem` (everything except the history
side effect): detection, matrix resolution, expansion, ranking. -/
def analyzeSolutions (lang : String) (maxSolutions : Nat)
    (problem improving worsening : String) : List Solution :=
  let iw := autodetect_params problem improving worsening
  sortSolutions (expand_candidates lang maxSolutions problem iw.1 iw.2
    (resolve_candidates contradiction_matrix problem iw.1 iw.2))

/-- The engine configuration entries read by the analysis code. -/
structure Config where
  max_solutions : Nat
  enable_history : Bool
  auto_save : Bool
deriving DecidableEq

/-- The `ProblemSession` dataclass (timestamp and session id as strings,
supplied by the environment). -/
structure ProblemSession where
  problem : String
  improving_param : String
  worsening_param : String
  solutions : List Solution
  timestamp : String
  session_id : String
  user_rating : Option Int
  notes : String
deriving DecidableEq

/-- The mutable state of an `AdvancedTRIZInnovator` instance that the
analysis path reads or writes. -/
structure Innovator where
  current_language : String
  history : List ProblemSession
  favorites : List String
  config : Config
deriving DecidableEq

/-- `analyze_problem`, with the history mutation made explicit: returns the
updated engine state and the solution list. `now` and `sid` stand for
`datetime.datetime.now()` and the fresh session id, supplied by the
environment. -/
def analyze_problem (inn : Innovator) (now sid : String)
    (problem improving worsening : String) : Innovator × List Solution :=
  let iw := autodetect_params problem improving worsening
  let solutions := analyzeSolutions inn.current_language inn.config.max_solutions
    problem improving worsening
  if inn.config.enable_history then
    ({ inn with history := inn.history ++
        [⟨problem, iw.1, iw.2, solutions, now, sid, none, ""⟩] }, solutions)
  else (inn, solutions)

/-- `brainstorm`: classification-only candidate source, empty parameter
strings throughout, truncation after ranking. -/
def brainstorm (lang : String) (configMax : Nat) (problem : String)
    (num_solutions : Option Nat) : List Solution :=
  let n := num_solutions.getD configMax
  let relevant_principles := get_smart_recommendations problem "" ""
  let solutions := relevant_principles.filterMap
    (fun pid => (principles.lookup pid).map
      (fun p => generate_solution lang problem p pid "" ""))
  (sortSolutions solutions).take n

/-- JSON values, for the export structure built by `_export_json`
(`json.dumps`/`json.loads` are the Python standard library; the
repository-owned content is the object constructed here). -/
inductive JVal where
  | str (s : String)
  | num (q : ℚ)
  | arr (elems : List JVal)
  | obj (fields : List (String × JVal))

/-- Field lookup in a JSON object. -/
def jlookup (j : JVal) (k : String) : Option JVal :=
  match j with
  | .obj fields => fields.lookup k
  | _ => none

/-- `Solution.to_dict` (`dataclasses.asdict`): the fields in declaration
order. -/
def Solution.to_dict (s : Solution) : JVal :=
  .obj [("principle", .str s.principle),
        ("principle_id", .num s.principle_id),
        ("description", .str s.description),
        ("detailed_explanation", .str s.detailed_explanation),
        ("examples", .arr (s.examples.map .str)),
        ("confidence", .num s.confidence),
        ("relevance_score", .num s.relevance_score),
        ("category", .str s.category),
        ("tags", .arr (s.tags.map .str))]

/-- The JSON object built by `_export_json` (`now` stands for
`datetime.datetime.now().isoformat()`, `lang` for `current_language`). -/
def export_json (now lang : String) (solutions : List Solution) : JVal :=
  .obj [("timestamp", .str now),
        ("solution_count", .num solutions.length),
        ("language", .str lang),
        ("solutions", .arr (solutions.map Solution.to_dict))]

/-- A problem text whose lower-casing matches no parameter keyword, no
problem-category keyword, no principle keyword, and no word of any
principle example (of language `lang`). -/
def keyword_free (lang problem : String) : Bool :=
  parameter_keywords.all (fun pk => pk.2.all (fun kw => !strContains (pyLower problem) kw)) &&
  problem_categories.all (fun ck => ck.2.all (fun kw => !strContains (pyLower problem) kw)) &&
  principles.all (fun pp => pp.2.keywords.all (fun kw => !strContains (pyLower problem) kw)) &&
  principles.all (fun pp => (get_principle_text lang pp.2.examples).all
    (fun ex => (pySplit (pyLower ex)).all (fun w => !strContains (pyLower problem) w)))


/-! ### Basic lemmas about the string and sorting helpers -/

theorem strContains_empty (s : String) : strContains s "" = true := by
  unfold strContains
  rw [List.any_eq_true]
  refine ⟨s.data, ?_, ?_⟩
  · exact (List.mem_tails _ _).2 (List.suffix_refl _)
  · simp [List.isPrefixOf]

theorem pyLower_empty : pyLower "" = "" := rfl

theorem mem_of_lookup_eq_some {α β : Type} [BEq α] {l : List (α × β)} {k : α} {b : β}
    (h : l.lookup k = some b) : b ∈ l.map Prod.snd := by
  induction l with
  | nil => simp at h
  | cons hd tl ih =>
    obtain ⟨k1, b1⟩ := hd
    rw [List.lookup_cons] at h
    cases hk : (k == k1) with
    | true => rw [hk] at h; simp at h; simp [h]
    | false => rw [hk] at h; simp at h; simp [ih h]

theorem idxFrom_map_snd {α : Type} (n : Nat) (l : List α) :
    (idxFrom n l).map Prod.snd = l := by
  induction l generalizing n with
  | nil => rfl
  | cons a as ih => simp [idxFrom, ih]

theorem mem_idxFrom {α : Type} {x : Nat × α} {n : Nat} {l : List α}
    (h : x ∈ idxFrom n l) : n ≤ x.1 ∧ x.2 ∈ l := by
  induction l generalizing n with
  | nil => simp [idxFrom] at h
  | cons a as ih =>
    rcases List.mem_cons.1 h with h | h
    · subst h; simp
    · have := ih h
      exact ⟨by omega, by simp [this.2]⟩

theorem insertRank_perm (a : Nat × Solution) (l : List (Nat × Solution)) :
    List.Perm (insertRank a l) (a :: l) := by
  induction l with
  | nil => exact List.Perm.refl _
  | cons b bs ih =>
    rw [insertRank]
    by_cases h : rankLE a b = true
    · rw [if_pos h]
    · rw [if_neg h]
      exact (ih.cons b).trans (List.Perm.swap a b bs)

theorem rankSort_perm (l : List (Nat × Solution)) : List.Perm (rankSort l) l := by
  induction l with
  | nil => exact List.Perm.refl _
  | cons a as ih => exact (insertRank_perm a (rankSort as)).trans (ih.cons a)

theorem sortSolutions_perm (l : List Solution) : List.Perm (sortSolutions l) l := by
  unfold sortSolutions
  have h1 : List.Perm ((rankSort (idxFrom 0 l)).map Prod.snd) ((idxFrom 0 l).map Prod.snd) :=
    (rankSort_perm _).map Prod.snd
  rwa [idxFrom_map_snd 0 l] at h1

theorem mem_sortSolutions {s : Solution} {l : List Solution} :
    s ∈ sortSolutions l ↔ s ∈ l := (sortSolutions_perm l).mem_iff

theorem length_sortSolutions (l : List Solution) :
    (sortSolutions l).length = l.length := (sortSolutions_perm l).length_eq

theorem rankLE_total (a b : Nat × Solution) : rankLE a b = true ∨ rankLE b a = true := by
  unfold rankLE
  rcases lt_trichotomy (combined_score b.2) (combined_score a.2) with h | h | h
  · left; simp only [decide_eq_true_eq]; left; exact h
  · rcases Nat.le_total a.1 b.1 with hi | hi
    · left; simp only [decide_eq_true_eq]; right; exact ⟨h.symm, hi⟩
    · right; simp only [decide_eq_true_eq]; right; exact ⟨h, hi⟩
  · right; simp only [decide_eq_true_eq]; left; exact h

theorem rankLE_trans {a b c : Nat × Solution}
    (hab : rankLE a b = true) (hbc : rankLE b c = true) : rankLE a c = true := by
  unfold rankLE at hab hbc ⊢
  simp only [decide_eq_true_eq] at hab hbc ⊢
  rcases hab with h1 | ⟨h1, i1⟩ <;> rcases hbc with h2 | ⟨h2, i2⟩
  · left; exact h2.trans h1
  · left; rwa [h2] at h1
  · left; rw [h1]; exact h2
  · right; exact ⟨h1.trans h2, i1.trans i2⟩

theorem mem_insertRank {x a : Nat × Solution} {l : List (Nat × Solution)} :
    x ∈ insertRank a l ↔ x = a ∨ x ∈ l := by
  have h := (insertRank_perm a l).mem_iff (a := x)
  simpa using h

theorem pairwise_insertRank {a : Nat × Solution} {l : List (Nat × Solution)}
    (h : l.Pairwise (fun x y => rankLE x y = true)) :
    (insertRank a l).Pairwise (fun x y => rankLE x y = true) := by
  induction l with
  | nil => simp [insertRank]
  | cons b bs ih =>
    rw [insertRank]
    by_cases hab : rankLE a b = true
    · rw [if_pos hab]
      refine List.Pairwise.cons ?_ h
      intro c hc
      rcases List.mem_cons.1 hc with rfl | hc
      · exact hab
      · exact rankLE_trans hab ((List.pairwise_cons.1 h).1 c hc)
    · rw [if_neg hab]
      have hba : rankLE b a = true := (rankLE_total a b).resolve_left hab
      refine List.Pairwise.cons ?_ (ih (List.pairwise_cons.1 h).2)
      intro c hc
      rcases mem_insertRank.1 hc with rfl | hc
      · exact hba
      · exact (List.pairwise_cons.1 h).1 c hc

theorem pairwise_rankSort (l : List (Nat × Solution)) :
    (rankSort l).Pairwise (fun x y => rankLE x y = true) := by
  induction l with
  | nil => simp [rankSort]
  | cons a as ih => exact pairwise_insertRank ih

theorem rankSort_of_pairwise {l : List (Nat × Solution)}
    (h : l.Pairwise (fun x y => rankLE x y = true)) : rankSort l = l := by
  induction l with
  | nil => rfl
  | cons a as ih =>
    rw [rankSort, ih (List.pairwise_cons.1 h).2]
    cases as with
    | nil => rfl
    | cons b bs =>
      rw [insertRank, if_pos ((List.pairwise_cons.1 h).1 b (by simp))]

/-! ### Lemmas about the score formulas -/

theorem keyword_bonus_nonneg (k : Nat) : (0 : ℚ) ≤ min (3/10) ((k : ℚ) * (1/10)) := by
  refine le_min (by norm_num) ?_
  positivity

theorem calculate_confidence_bounds (problem : String) (p : PrincipleData)
    (improving worsening : String) :
    3/5 ≤ calculate_confidence problem p improving worsening ∧
      calculate_confidence problem p improving worsening ≤ 19/20 := by
  unfold calculate_confidence
  constructor
  · refine le_min (by norm_num) ?_
    have h1 := keyword_bonus_nonneg (p.keywords.countP
      (fun kw => strContains (pyLower problem) kw))
    have h2 : (0 : ℚ) ≤ (if strContains (pyLower (pyStrList p.keywords)) (pyLower improving) ||
        strContains (pyLower (pyStrList p.keywords)) (pyLower worsening) then (1/10 : ℚ) else 0) := by
      split <;> norm_num
    linarith
  · exact (min_le_left _ _).trans (by norm_num)

theorem calculate_relevance_bounds (lang problem : String) (p : PrincipleData) :
    0 ≤ calculate_relevance lang problem p ∧ calculate_relevance lang problem p ≤ 1 := by
  unfold calculate_relevance
  constructor
  · refine le_min (by norm_num) ?_
    positivity
  · exact min_le_left _ _

theorem calculate_confidence_empty_params (problem : String) (p : PrincipleData)
    (hkw : ∀ kw ∈ p.keywords, strContains (pyLower problem) kw = false) :
    calculate_confidence problem p "" "" = 7/10 := by
  have hcount : p.keywords.countP (fun kw => strContains (pyLower problem) kw) = 0 :=
    List.countP_eq_zero.2 (by intro a ha; simp [hkw a ha])
  simp only [calculate_confidence, hcount, pyLower_empty, strContains_empty, Bool.true_or,
    if_true]
  norm_num

theorem calculate_relevance_empty (lang problem : String) (p : PrincipleData)
    (hkw : ∀ kw ∈ p.keywords, strContains (pyLower problem) kw = false)
    (hex : ∀ ex ∈ get_principle_text lang p.examples,
      ∀ w ∈ pySplit (pyLower ex), strContains (pyLower problem) w = false) :
    calculate_relevance lang problem p = 0 := by
  have hcount : p.keywords.countP (fun kw => strContains (pyLower problem) kw) = 0 :=
    List.countP_eq_zero.2 (by intro a ha; simp [hkw a ha])
  have hexc : (get_principle_text lang p.examples).countP
      (fun ex => (pySplit (pyLower ex)).any (fun w => strContains (pyLower problem) w)) = 0 := by
    refine List.countP_eq_zero.2 ?_
    intro ex hexm
    simp only [List.any_eq_true]
    rintro ⟨w, hw, hcon⟩
    rw [hex ex hexm w hw] at hcon
    exact Bool.false_ne_true hcon
  simp only [calculate_relevance, hcount, hexc]
  norm_num

theorem confidence_lower_bound_empty_params (lang problem : String) (p : PrincipleData)
    (pid : Nat) :
    7/10 ≤ (generate_solution lang problem p pid "" "").confidence := by
  show 7/10 ≤ calculate_confidence problem p "" ""
  have h1 := keyword_bonus_nonneg (p.keywords.countP
    (fun kw => strContains (pyLower problem) kw))
  simp only [calculate_confidence, pyLower_empty, strContains_empty, Bool.true_or, if_true]
  refine le_min (by norm_num) ?_
  linarith

/-! ### The keyword-free scenario -/

theorem keyword_free_spec {lang problem : String} (hp : keyword_free lang problem = true) :
    (∀ pk ∈ parameter_keywords, ∀ kw ∈ pk.2, strContains (pyLower problem) kw = false) ∧
    (∀ ck ∈ problem_categories, ∀ kw ∈ ck.2, strContains (pyLower problem) kw = false) ∧
    (∀ pp ∈ principles, ∀ kw ∈ pp.2.keywords, strContains (pyLower problem) kw = false) ∧
    (∀ pp ∈ principles, ∀ ex ∈ get_principle_text lang pp.2.examples,
      ∀ w ∈ pySplit (pyLower ex), strContains (pyLower problem) w = false) := by
  simp only [keyword_free, Bool.and_eq_true, List.all_eq_true, Bool.not_eq_true'] at hp
  exact ⟨hp.1.1.1, hp.1.1.2, hp.1.2, hp.2⟩

theorem smart_parameter_detection_eq_nil {problem : String}
    (h : ∀ pk ∈ parameter_keywords, ∀ kw ∈ pk.2, strContains (pyLower problem) kw = false) :
    smart_parameter_detection problem = [] := by
  unfold smart_parameter_detection
  rw [List.map_eq_nil_iff, List.filter_eq_nil_iff]
  intro pk hpk
  simp only [List.any_eq_true]
  rintro ⟨kw, hkw, hc⟩
  rw [h pk hpk kw hkw] at hc
  exact Bool.false_ne_true hc

theorem categorize_eq_default {problem : String}
    (h : ∀ ck ∈ problem_categories, ∀ kw ∈ ck.2, strContains (pyLower problem) kw = false) :
    categorize_problem problem = "General Problem" := by
  unfold categorize_problem
  have hfind : problem_categories.find?
      (fun ck => ck.2.any (fun kw => strContains (pyLower problem) kw)) = none := by
    rw [List.find?_eq_none]
    intro ck hck
    simp only [List.any_eq_true]
    rintro ⟨kw, hkw, hc⟩
    rw [h ck hck kw hkw] at hc
    exact Bool.false_ne_true hc
  rw [hfind]

theorem autodetect_params_of_nil {problem : String}
    (h : smart_parameter_detection problem = []) :
    autodetect_params problem "" "" = ("", "") := by
  unfold autodetect_params
  rw [if_pos (Or.inl rfl), h]

theorem get_smart_recommendations_general {problem : String}
    (hcat : categorize_problem problem = "General Problem") (improving worsening : String) :
    get_smart_recommendations problem improving worsening = default_recommendations := by
  unfold get_smart_recommendations
  rw [hcat]
  rfl

theorem resolve_candidates_of_general {problem improving worsening : String}
    (hcat : categorize_problem problem = "General Problem")
    (hlk : lookup_matrix contradiction_matrix improving worsening = none) :
    resolve_candidates contradiction_matrix problem improving worsening =
      default_recommendations := by
  unfold resolve_candidates
  rw [hlk, get_smart_recommendations_general hcat]

theorem lookup_matrix_empty_params :
    lookup_matrix contradiction_matrix "" "" = none := by decide

theorem pairwise_idxFrom_const {l : List Solution} {c : ℚ}
    (hc : ∀ s ∈ l, combined_score s = c) (n : Nat) :
    (idxFrom n l).Pairwise (fun x y => rankLE x y = true) := by
  induction l generalizing n with
  | nil => simp [idxFrom]
  | cons a as ih =>
    refine List.Pairwise.cons ?_ (ih (fun s hs => hc s (by simp [hs])) (n + 1))
    intro x hx
    have hm := mem_idxFrom hx
    unfold rankLE
    simp only [decide_eq_true_eq]
    right
    constructor
    · rw [hc a (by simp), hc x.2 (by simp [hm.2])]
    · omega

theorem sortSolutions_of_const {l : List Solution} {c : ℚ}
    (hc : ∀ s ∈ l, combined_score s = c) : sortSolutions l = l := by
  unfold sortSolutions
  rw [rankSort_of_pairwise (pairwise_idxFrom_const hc 0), idxFrom_map_snd]

theorem mem_solution_filterMap {lang problem improving worsening : String} {ids : List Nat}
    {s : Solution}
    (hs : s ∈ ids.filterMap (fun pid => (principles.lookup pid).map
      (fun p => generate_solution lang problem p pid improving worsening))) :
    ∃ pid ∈ ids, ∃ p, principles.lookup pid = some p ∧
      s = generate_solution lang problem p pid improving worsening := by
  rcases List.mem_filterMap.1 hs with ⟨pid, hpid, hmap⟩
  rcases Option.map_eq_some.1 hmap with ⟨p, hp, rfl⟩
  exact ⟨pid, hpid, p, hp, rfl⟩

theorem filterMap_scores_of_free {lang problem : String}
    (h3 : ∀ pp ∈ principles, ∀ kw ∈ pp.2.keywords, strContains (pyLower problem) kw = false)
    (h4 : ∀ pp ∈ principles, ∀ ex ∈ get_principle_text lang pp.2.examples,
      ∀ w ∈ pySplit (pyLower ex), strContains (pyLower problem) w = false)
    (ids : List Nat) :
    ∀ s ∈ ids.filterMap (fun pid => (principles.lookup pid).map
        (fun p => generate_solution lang problem p pid "" "")),
      s.confidence = 7/10 ∧ s.relevance_score = 0 := by
  intro s hs
  rcases mem_solution_filterMap hs with ⟨pid, _, p, hp, rfl⟩
  have hpmem : p ∈ principles.map Prod.snd := mem_of_lookup_eq_some hp
  rcases List.mem_map.1 hpmem with ⟨pp, hppmem, rfl⟩
  constructor
  · exact calculate_confidence_empty_params problem pp.2 (h3 pp hppmem)
  · exact calculate_relevance_empty lang problem pp.2 (h3 pp hppmem) (h4 pp hppmem)

theorem combined_score_of_values {s : Solution} (h1 : s.confidence = 7/10)
    (h2 : s.relevance_score = 0) : combined_score s = 7/20 := by
  unfold combined_score
  rw [h1, h2]
  norm_num

/-- The engine on a keyword-free problem with empty parameter strings:
default category, global default candidates, no reordering, and every
solution scored `confidence = 0.7`, `relevance = 0`. -/
theorem analyzeSolutions_keyword_free (lang problem : String) (maxS : Nat)
    (hp : keyword_free lang problem = true) :
    categorize_problem problem = "General Problem" ∧
    resolve_candidates contradiction_matrix problem "" "" = default_recommendations ∧
    analyzeSolutions lang maxS problem "" "" =
      expand_candidates lang maxS problem "" "" default_recommendations ∧
    ∀ s ∈ analyzeSolutions lang maxS problem "" "",
      s.confidence = 7/10 ∧ s.relevance_score = 0 := by
  obtain ⟨h1, h2, h3, h4⟩ := keyword_free_spec hp
  have hdet := smart_parameter_detection_eq_nil h1
  have hcat := categorize_eq_default h2
  have hresolve := resolve_candidates_of_general hcat lookup_matrix_empty_params
  have hscores := filterMap_scores_of_free h3 h4 (default_recommendations.take maxS)
  have hexp : ∀ s ∈ expand_candidates lang maxS problem "" "" default_recommendations,
      s.confidence = 7/10 ∧ s.relevance_score = 0 := by
    intro s hs
    exact hscores s hs
  have hana : analyzeSolutions lang maxS problem "" "" =
      expand_candidates lang maxS problem "" "" default_recommendations := by
    unfold analyzeSolutions
    rw [autodetect_params_of_nil hdet]
    simp only
    rw [hresolve]
    exact sortSolutions_of_const
      (fun s hs => combined_score_of_values (hexp s hs).1 (hexp s hs).2)
  refine ⟨hcat, hresolve, hana, ?_⟩
  intro s hs
  rw [hana] at hs
  exact hexp s hs

/-- `brainstorm` on a keyword-free problem: global default candidates,
no reordering, truncated to the requested count. -/
theorem brainstorm_keyword_free (lang problem : String) (cfgMax : Nat) (num : Option Nat)
    (hp : keyword_free lang problem = true) :
    brainstorm lang cfgMax problem num =
      (default_recommendations.filterMap (fun pid => (principles.lookup pid).map
        (fun p => generate_solution lang problem p pid "" ""))).take (num.getD cfgMax) := by
  obtain ⟨h1, h2, h3, h4⟩ := keyword_free_spec hp
  have hcat := categorize_eq_default h2
  have hscores := filterMap_scores_of_free h3 h4 default_recommendations
  unfold brainstorm
  simp only
  rw [get_smart_recommendations_general hcat]
  rw [sortSolutions_of_const
    (fun s hs => combined_score_of_values (hscores s hs).1 (hscores s hs).2)]

/-! ### Claim theorems -/

/-- C1 (counterexample to the claim as stated): `"zzz"` matches no keyword
at all, yet the solutions returned by `analyze_problem` have confidence
`0.7`, not `0.6`: the `0.1` parameter bonus fires because the empty
parameter string is a substring of the stringified keyword list. -/
theorem keyword_free_confidence_not_point_six :
    keyword_free "zh" "zzz" = true ∧
    ¬ (∀ s ∈ analyzeSolutions "zh" 5 "zzz" "" "", s.confidence = 3/5) := by
  refine ⟨by decide, ?_⟩
  intro hall
  have h := analyzeSolutions_keyword_free "zh" "zzz" 5 (by decide)
  have hmem : generate_solution "zh" "zzz" principle_1 1 "" "" ∈
      analyzeSolutions "zh" 5 "zzz" "" "" := by
    rw [h.2.2.1]
    exact List.mem_filterMap.2 ⟨1, by decide,
      by rw [show principles.lookup 1 = some principle_1 from rfl]; rfl⟩
  have h6 := hall _ hmem
  have h7 := (h.2.2.2 _ hmem).1
  rw [h6] at h7
  norm_num at h7

/-- C1 (amended): on a problem text matching no parameter keyword, no
category keyword, no principle keyword and no principle-example word,
`analyze_problem` with empty improving/worsening classifies into the
default category, resolves to the non-empty global default id list, and
every returned solution has confidence exactly `0.7` (the `0.6` base plus
the `0.1` parameter bonus, which always fires for empty parameter strings)
and relevance exactly `0.0`. -/
theorem analyze_keyword_free_scores (lang problem : String) (maxS : Nat)
    (hp : keyword_free lang problem = true) :
    categorize_problem problem = "General Problem" ∧
    resolve_candidates contradiction_matrix problem "" "" = default_recommendations ∧
    default_recommendations ≠ [] ∧
    ∀ s ∈ analyzeSolutions lang maxS problem "" "",
      s.confidence = 7/10 ∧ s.relevance_score = 0 := by
  obtain ⟨a, b, _, d⟩ := analyzeSolutions_keyword_free lang problem maxS hp
  exact ⟨a, b, by decide, d⟩

/-- Witness for C1 (amended) at `problem = "zzz"`. -/
theorem analyze_keyword_free_scores_witness :
    keyword_free "zh" "zzz" = true ∧
    (categorize_problem "zzz" = "General Problem" ∧
     resolve_candidates contradiction_matrix "zzz" "" "" = default_recommendations ∧
     default_recommendations ≠ [] ∧
     ∀ s ∈ analyzeSolutions "zh" 5 "zzz" "" "",
       s.confidence = 7/10 ∧ s.relevance_score = 0) :=
  ⟨by decide, analyze_keyword_free_scores "zh" "zzz" 5 (by decide)⟩

/-- C2: `analyze_problem` returns at most `max_solutions` solutions (the
candidate list is truncated before scoring), sorted non-increasingly by
`(confidence + relevance) / 2`; the sort it uses is a stable sort (a
permutation in which tied elements keep their original relative order). -/
theorem analyze_count_sorted_stable (lang : String) (maxS : Nat)
    (problem improving worsening : String) :
    (analyzeSolutions lang maxS problem improving worsening).length ≤ maxS ∧
    (analyzeSolutions lang maxS problem improving worsening).Pairwise
      (fun a b => combined_score b ≤ combined_score a) ∧
    (∀ l : List Solution, List.Perm (sortSolutions l) l ∧
      (rankSort (idxFrom 0 l)).Pairwise
        (fun a b => combined_score a.2 = combined_score b.2 → a.1 ≤ b.1)) := by
  refine ⟨?_, ?_, ?_⟩
  · unfold analyzeSolutions
    rw [length_sortSolutions]
    calc (expand_candidates lang maxS problem _ _ _).length
        ≤ ((resolve_candidates contradiction_matrix problem _ _).take maxS).length :=
          List.length_filterMap_le _ _
      _ ≤ maxS := by rw [List.length_take]; exact min_le_left _ _
  · unfold analyzeSolutions sortSolutions
    refine List.Pairwise.map Prod.snd ?_ (pairwise_rankSort _)
    intro a b hab
    unfold rankLE at hab
    simp only [decide_eq_true_eq] at hab
    rcases hab with h | ⟨h, _⟩
    · exact le_of_lt h
    · exact le_of_eq h.symm
  · intro l
    refine ⟨sortSolutions_perm l, ?_⟩
    refine (pairwise_rankSort _).imp ?_
    intro a b hab heq
    unfold rankLE at hab
    simp only [decide_eq_true_eq] at hab
    rcases hab with h | ⟨_, h⟩
    · exact absurd h (by rw [heq]; exact lt_irrefl _)
    · exact h

/-- Helper: `_get_smart_recommendations` never returns an empty list. -/
theorem get_smart_recommendations_ne_nil (problem improving worsening : String) :
    get_smart_recommendations problem improving worsening ≠ [] := by
  unfold get_smart_recommendations
  cases hrec : recommendations.lookup (categorize_problem problem) with
  | none => decide
  | some l =>
    have hmem := mem_of_lookup_eq_some hrec
    have hall : ∀ x ∈ recommendations.map Prod.snd, x ≠ [] := by decide
    simpa using hall l hmem

/-- C3: the contradiction-resolution step always yields a non-empty
candidate list: a matrix hit, a reversed hit, a category default list, or
the non-empty global default. -/
theorem resolve_candidates_ne_nil (problem improving worsening : String) :
    resolve_candidates contradiction_matrix problem improving worsening ≠ [] := by
  unfold resolve_candidates
  cases hlk : lookup_matrix contradiction_matrix improving worsening with
  | none => exact get_smart_recommendations_ne_nil problem improving worsening
  | some v =>
    by_cases hv : v.isEmpty = true
    · show (if v.isEmpty = true then
          get_smart_recommendations problem improving worsening else v) ≠ []
      rw [if_pos hv]
      exact get_smart_recommendations_ne_nil problem improving worsening
    · show (if v.isEmpty = true then
          get_smart_recommendations problem improving worsening else v) ≠ []
      rw [if_neg hv]
      rw [Bool.not_eq_true] at hv
      exact List.isEmpty_eq_false.1 hv

/-- C4: for every problem text, principle record and parameter strings,
confidence lies in `[0.6, 0.95]` and relevance in `[0.0, 1.0]`. -/
theorem score_ranges (lang problem : String) (p : PrincipleData)
    (improving worsening : String) :
    (3/5 ≤ calculate_confidence problem p improving worsening ∧
      calculate_confidence problem p improving worsening ≤ 19/20) ∧
    (0 ≤ calculate_relevance lang problem p ∧ calculate_relevance lang problem p ≤ 1) :=
  ⟨calculate_confidence_bounds problem p improving worsening,
   calculate_relevance_bounds lang problem p⟩

/-- C5: if the matrix holds a (non-empty) entry for the ordered pair
`(A, B)` and none for `(B, A)`, resolving with `improving = B`,
`worsening = A` takes the reversed-pair fallback and returns the `(A, B)`
entry. -/
theorem resolve_reversed_pair (m : List ((String × String) × List Nat))
    (problem A B : String) (ps : List Nat)
    (hfwd : m.lookup (pyLower B, pyLower A) = none)
    (hrev : m.lookup (pyLower A, pyLower B) = some ps)
    (hne : ps ≠ []) :
    resolve_candidates m problem B A = ps := by
  unfold resolve_candidates lookup_matrix
  rw [hfwd, hrev]
  unfold pyOrList
  have hemp : ps.isEmpty = false := List.isEmpty_eq_false.2 hne
  simp [hemp]

/-- Witness for C5 on a one-entry matrix. -/
theorem resolve_reversed_pair_witness :
    ([(("a", "b"), [1, 2])] : List ((String × String) × List Nat)).lookup
        (pyLower "b", pyLower "a") = none ∧
    ([(("a", "b"), [1, 2])] : List ((String × String) × List Nat)).lookup
        (pyLower "a", pyLower "b") = some [1, 2] ∧
    resolve_candidates [(("a", "b"), [1, 2])] "text" "b" "a" = [1, 2] :=
  ⟨by decide, by decide,
    resolve_reversed_pair [(("a", "b"), [1, 2])] "text" "a" "b" [1, 2]
      (by decide) (by decide) (by decide)⟩

/-- C6: when both matrix lookups miss, the resolver returns the classified
category's entry of the fixed recommendation table, falling back to the
global default exactly when the classified category is not in that table. -/
theorem resolve_fallback_classification (problem improving worsening : String)
    (hmiss : lookup_matrix contradiction_matrix improving worsening = none ∨
      lookup_matrix contradiction_matrix improving worsening = some []) :
    (∀ ids, recommendations.lookup (categorize_problem problem) = some ids →
      resolve_candidates contradiction_matrix problem improving worsening = ids) ∧
    (recommendations.lookup (categorize_problem problem) = none →
      resolve_candidates contradiction_matrix problem improving worsening =
        default_recommendations) := by
  have hres : resolve_candidates contradiction_matrix problem improving worsening =
      get_smart_recommendations problem improving worsening := by
    unfold resolve_candidates
    rcases hmiss with h | h <;> rw [h]
    simp
  constructor
  · intro ids hids
    rw [hres]
    unfold get_smart_recommendations
    rw [hids]
    rfl
  · intro hnone
    rw [hres]
    unfold get_smart_recommendations
    rw [hnone]
    rfl

/-- Witness for C6: `"技术"` classifies as `"Technical Problem"`, whose
table entry `[1, 2, 15, 35, 40]` is returned when the matrix misses. -/
theorem resolve_fallback_classification_witness :
    (lookup_matrix contradiction_matrix "x" "y" = none ∨
      lookup_matrix contradiction_matrix "x" "y" = some []) ∧
    resolve_candidates contradiction_matrix "技术" "x" "y" = [1, 2, 15, 35, 40] :=
  ⟨Or.inl (by decide),
    (resolve_fallback_classification "技术" "x" "y" (Or.inl (by decide))).1
      [1, 2, 15, 35, 40] (by decide)⟩

/-- C7: candidate ids absent from the principle table are silently skipped
by the expansion loop — the returned ids are exactly the known ids among
the first `max_solutions` candidates, and an all-unknown candidate list
yields the empty result (no error is possible: the function is total). -/
theorem expand_skips_unknown_ids (lang : String) (maxS : Nat)
    (problem improving worsening : String) (principle_ids : List Nat) :
    (expand_candidates lang maxS problem improving worsening principle_ids).map
        Solution.principle_id =
      (principle_ids.take maxS).filter (fun pid => (principles.lookup pid).isSome) ∧
    expand_candidates lang maxS problem improving worsening [0] = [] := by
  constructor
  · unfold expand_candidates
    generalize principle_ids.take maxS = l
    induction l with
    | nil => rfl
    | cons a as ih =>
      cases h : principles.lookup a with
      | none => simp [List.filterMap_cons, h, List.filter_cons, ih]
      | some p =>
        simp [List.filterMap_cons, h, List.filter_cons, ih,
          show ∀ q pid, (generate_solution lang problem q pid improving
            worsening).principle_id = pid from fun _ _ => rfl]
  · have h0 : principles.lookup 0 = none := by decide
    unfold expand_candidates
    cases maxS with
    | zero => rfl
    | succ k => simp [List.take_succ_cons, List.filterMap_cons, h0]

/-- C8: the JSON object built by `_export_json` carries
`solution_count = len(solutions)`, nests the solution dicts under
`solutions` alongside `timestamp`, and preserves the input solutions'
`principle_id`s in order. -/
theorem export_json_structure (now lang : String) (solutions : List Solution) :
    jlookup (export_json now lang solutions) "solution_count" =
      some (.num solutions.length) ∧
    jlookup (export_json now lang solutions) "solutions" =
      some (.arr (solutions.map Solution.to_dict)) ∧
    jlookup (export_json now lang solutions) "timestamp" = some (.str now) ∧
    (solutions.map Solution.to_dict).map (fun j => jlookup j "principle_id") =
      solutions.map (fun s => some (.num s.principle_id)) := by
  refine ⟨rfl, rfl, rfl, ?_⟩
  induction solutions with
  | nil => rfl
  | cons s ss ih => simp only [List.map_cons, ih]; rfl

/-- C9: running `analyze_problem` twice with identical arguments on the
same engine (the history append between the calls notwithstanding) yields
the same solution list — in particular the same ids, confidences and
relevance scores. -/
theorem analyze_deterministic (inn : Innovator) (now1 sid1 now2 sid2 : String)
    (problem improving worsening : String) :
    (analyze_problem (analyze_problem inn now1 sid1 problem improving worsening).1
        now2 sid2 problem improving worsening).2 =
      (analyze_problem inn now1 sid1 problem improving worsening).2 := by
  unfold analyze_problem
  by_cases h : inn.config.enable_history = true <;> simp [h]

/-- C10: every solution produced by `brainstorm` has confidence at least
`0.7`: both parameters are empty strings, and the empty string is a
substring of the stringified keyword list, so the `0.1` parameter bonus is
always added to the `0.6` base. -/
theorem brainstorm_confidence_ge (lang : String) (cfgMax : Nat) (problem : String)
    (num : Option Nat) (s : Solution) (hs : s ∈ brainstorm lang cfgMax problem num) :
    7/10 ≤ s.confidence := by
  unfold brainstorm at hs
  simp only at hs
  have hs2 := List.mem_of_mem_take hs
  have hs3 := mem_sortSolutions.1 hs2
  rcases mem_solution_filterMap hs3 with ⟨pid, _, p, hp, rfl⟩
  exact confidence_lower_bound_empty_params lang problem p pid

/-- Witness for C10: the first brainstorm solution for `"zzz"`. -/
theorem brainstorm_confidence_ge_witness :
    (generate_solution "zh" "zzz" principle_1 1 "" "" ∈ brainstorm "zh" 5 "zzz" none) ∧
    7/10 ≤ (generate_solution "zh" "zzz" principle_1 1 "" "").confidence := by
  have hmem : generate_solution "zh" "zzz" principle_1 1 "" "" ∈
      brainstorm "zh" 5 "zzz" none := by
    rw [brainstorm_keyword_free "zh" "zzz" 5 none (by decide)]
    apply List.mem_of_mem_take (n := (none : Option Nat).getD 5)
    rw [List.take_take]
    have hlen : ((default_recommendations.filterMap (fun pid => (principles.lookup pid).map
        (fun p => generate_solution "zh" "zzz" p pid "" ""))).take
          (min ((none : Option Nat).getD 5) ((none : Option Nat).getD 5))) =
        default_recommendations.filterMap (fun pid => (principles.lookup pid).map
          (fun p => generate_solution "zh" "zzz" p pid "" "")) := by
      apply List.take_of_length_le
      have : (default_recommendations.filterMap (fun pid => (principles.lookup pid).map
          (fun p => generate_solution "zh" "zzz" p pid "" ""))).length ≤
          default_recommendations.length := List.length_filterMap_le _ _
      simpa using this.trans (by decide)
    rw [hlen]
    exact List.mem_filterMap.2 ⟨1, by decide,
      by rw [show principles.lookup 1 = some principle_1 from rfl]; rfl⟩
  exact ⟨hmem, brainstorm_confidence_ge "zh" 5 "zzz" none _ hmem⟩

end TrizCore
